import Mathlib

/-!
Verification development for `Source/SceneManager.cpp` (Wedding-Overlay-3D-Rendering).

The file shallowly embeds the scene-resource and transform-composition
pipeline of the C++ class `SceneManager`:

* the texture registry (`CreateGLTexture`, `BindGLTextures`, `FindTextureSlot`,
  `LoadSceneTextures`),
* the material registry (`FindMaterial`),
* the transform composer (`SetTransformations`),
* the shader-state dispatcher (`SetShaderColor`, `SetShaderTexture`,
  `SetTextureUVScale`, `SetShaderMaterial`),
* and the scene assembler (`RenderScene` and its per-object render routines),

and proves the behavioural properties stated about them.  GPU-side effects
(uniform writes, texture binds, draw commands) are modelled as explicit event
lists; member state of the C++ object is a record threaded through every
operation.  Floating-point angles enter only through their cosine and sine,
which are carried symbolically, so all matrix algebra is exact over `ℚ`.
-/

namespace SceneManager

/-- A 3-component vector, standing in for `glm::vec3`.  Scene constants are
decimal literals, all exactly representable in `ℚ`. -/
structure Vec3 where
  x : ℚ
  y : ℚ
  z : ℚ
deriving DecidableEq, Repr

/-- 4x4 matrices standing in for `glm::mat4`.  We use the mathematical
(row, column) convention; glm stores matrices column-major, so glm entry
`M[c][r]` is entry `(r, c)` here, and glm `operator*` is ordinary matrix
multiplication. -/
abbrev Mat4 : Type := Matrix (Fin 4) (Fin 4) ℚ

/-- `glm::scale(v)`: diagonal scaling matrix. -/
def glmScale (v : Vec3) : Mat4 :=
  !![v.x, 0,   0,   0;
     0,   v.y, 0,   0;
     0,   0,   v.z, 0;
     0,   0,   0,   1]

/-- `glm::translate(v)`: identity with `v` in the fourth column. -/
def glmTranslate (v : Vec3) : Mat4 :=
  !![1, 0, 0, v.x;
     0, 1, 0, v.y;
     0, 0, 1, v.z;
     0, 0, 0, 1]

/-- `glm::rotate(angle, axis)` transcribed from glm (Rodrigues form), for an
axis that is already unit length — `SetTransformations` only ever passes the
unit X, Y or Z axis.  The angle enters through `c = cos angle` and
`s = sin angle`, carried symbolically. -/
def glmRotate (c s : ℚ) (a : Vec3) : Mat4 :=
  !![c + (1-c)*a.x*a.x,     (1-c)*a.y*a.x - s*a.z, (1-c)*a.z*a.x + s*a.y, 0;
     (1-c)*a.x*a.y + s*a.z, c + (1-c)*a.y*a.y,     (1-c)*a.z*a.y - s*a.x, 0;
     (1-c)*a.x*a.z - s*a.y, (1-c)*a.y*a.z + s*a.x, c + (1-c)*a.z*a.z,     0;
     0,                     0,                     0,                     1]

/-- The model matrix computed by `SceneManager::SetTransformations`
(`modelView = translation * rotationZ * rotationY * rotationX * scale`,
source lines 255-271), with the cosine/sine of each radian-converted Euler
angle passed symbolically:  `cx = cos (radians X)`, `sx = sin (radians X)`,
and likewise for Y and Z. -/
def SetTransformationsMatrix (scaleXYZ : Vec3) (cx sx cy sy cz sz : ℚ)
    (positionXYZ : Vec3) : Mat4 :=
  glmTranslate positionXYZ
    * glmRotate cz sz ⟨0, 0, 1⟩
    * glmRotate cy sy ⟨0, 1, 0⟩
    * glmRotate cx sx ⟨1, 0, 0⟩
    * glmScale scaleXYZ

/-- Textbook rotation about the unit X axis, built from the specification's
words (`Rx(x)`), to be compared with the source's composition. -/
def specRotationX (c s : ℚ) : Mat4 :=
  !![1, 0, 0,  0;
     0, c, -s, 0;
     0, s, c,  0;
     0, 0, 0,  1]

/-- Textbook rotation about the unit Y axis (`Ry(y)` in the specification). -/
def specRotationY (c s : ℚ) : Mat4 :=
  !![c,  0, s, 0;
     0,  1, 0, 0;
     -s, 0, c, 0;
     0,  0, 0, 1]

/-- Textbook rotation about the unit Z axis (`Rz(z)` in the specification). -/
def specRotationZ (c s : ℚ) : Mat4 :=
  !![c, -s, 0, 0;
     s, c,  0, 0;
     0, 0,  1, 0;
     0, 0,  0, 1]

/-- Homogeneous translation by `P` (`T(P)` in the specification). -/
def specTranslation (p : Vec3) : Mat4 :=
  !![1, 0, 0, p.x;
     0, 1, 0, p.y;
     0, 0, 1, p.z;
     0, 0, 0, 1]

/-- Diagonal scale by `S` (`Scale(S)` in the specification). -/
def specScale (v : Vec3) : Mat4 :=
  !![v.x, 0,   0,   0;
     0,   v.y, 0,   0;
     0,   0,   v.z, 0;
     0,   0,   0,   1]

/-- The specification's model matrix
`T(P) * Rz(z) * Ry(y) * Rx(x) * Scale(S)`, X innermost, then Y, then Z,
then translation. -/
def specModelMatrix (scaleXYZ : Vec3) (cx sx cy sy cz sz : ℚ)
    (positionXYZ : Vec3) : Mat4 :=
  specTranslation positionXYZ
    * specRotationZ cz sz
    * specRotationY cy sy
    * specRotationX cx sx
    * specScale scaleXYZ

/-- One entry of the texture registry (`m_textureIDs[i]`): the GL texture
name and the symbolic tag. -/
structure TextureEntry where
  ID : Nat
  tag : String
deriving DecidableEq, Repr

/-- A material bundle (`OBJECT_MATERIAL`). -/
structure ObjectMaterial where
  diffuseColor : Vec3
  specularColor : Vec3
  shininess : ℚ
  tag : String
deriving DecidableEq, Repr

instance : Inhabited ObjectMaterial := ⟨⟨⟨0, 0, 0⟩, ⟨0, 0, 0⟩, 0, ""⟩⟩

/-- The observable result of `stbi_load` on an image file: dimensions and
channel count.  Pixel data never influences control flow and is omitted. -/
structure ImageData where
  width : Nat
  height : Nat
  colorChannels : Nat
deriving DecidableEq, Repr

/-- The member state of a `SceneManager` object.  The fixed C++ array
`m_textureIDs[16]` together with its running count `m_loadedTextures` is
modelled as a list whose length is `m_loadedTextures` (writes happen only at
index `m_loadedTextures`, i.e. they append).  `shaderPresent` records whether
`m_pShaderManager` is non-null; `glNextID` models the GL texture-name
allocator consumed by `glGenTextures`. -/
structure SceneState where
  m_textureIDs : List TextureEntry
  m_objectMaterials : List ObjectMaterial
  shaderPresent : Bool
  glNextID : Nat
deriving DecidableEq, Repr

/-- State of a freshly constructed `SceneManager` (no textures, no materials;
the constructor stores the shader pointer passed in). -/
def initialState (shaderPresent : Bool) : SceneState :=
  ⟨[], [], shaderPresent, 1⟩

/-- `SceneManager::CreateGLTexture` (source lines 60-124).  `image` is the
decode result of `stbi_load` for the file.  On decode failure it returns
`false` with nothing changed; on an unsupported channel count it returns
`false` after consuming a GL texture name (`glGenTextures` runs before the
channel check) but without touching the registry; otherwise it appends a
`(tag, handle)` entry, incrementing `m_loadedTextures`. -/
def CreateGLTexture (image : Option ImageData) (tag : String)
    (s : SceneState) : Bool × SceneState :=
  match image with
  | some img =>
    let textureID := s.glNextID
    let s1 : SceneState := { s with glNextID := s.glNextID + 1 }
    if img.colorChannels = 3 ∨ img.colorChannels = 4 then
      (true, { s1 with m_textureIDs := s1.m_textureIDs ++ [⟨textureID, tag⟩] })
    else
      (false, s1)
  | none => (false, s)

/-- `SceneManager::BindGLTextures` (source lines 132-140): binds the texture
of entry `i` to texture unit `i`.  Returned as the list of
(texture unit, GL texture name) pairs; the registry itself is not touched. -/
def BindGLTextures (s : SceneState) : List (Nat × Nat) :=
  s.m_textureIDs.enum.map (fun e => (e.1, e.2.ID))

/-- The scan loop of `SceneManager::FindTextureSlot` (source lines 194-203):
first match wins, `index` follows the C++ `int` counter. -/
def FindTextureSlotAux (tag : String) : List TextureEntry → Int → Int
  | [], _ => -1
  | e :: rest, index =>
    if e.tag = tag then index else FindTextureSlotAux tag rest (index + 1)

/-- `SceneManager::FindTextureSlot` (source lines 188-206). -/
def FindTextureSlot (s : SceneState) (tag : String) : Int :=
  FindTextureSlotAux tag s.m_textureIDs 0

/-- The scan loop of `SceneManager::FindMaterial` (source lines 221-236):
on the first tag match the entry's colour and shininess fields are copied
into the caller's `material` variable; with no match the variable is left
alone. -/
def FindMaterialLoop (tag : String) (material : ObjectMaterial) :
    List ObjectMaterial → ObjectMaterial
  | [] => material
  | m :: rest =>
    if m.tag = tag then
      { material with
          diffuseColor := m.diffuseColor
          specularColor := m.specularColor
          shininess := m.shininess }
    else FindMaterialLoop tag material rest

/-- `SceneManager::FindMaterial` (source lines 214-239): returns `false`
and leaves `material` alone when the list is empty, and otherwise returns
`true` unconditionally together with the (possibly unmodified) `material`
reference. -/
def FindMaterial (mats : List ObjectMaterial) (tag : String)
    (material : ObjectMaterial) : Bool × ObjectMaterial :=
  if mats.isEmpty then (false, material)
  else (true, FindMaterialLoop tag material mats)

/-- One named uniform write received by the `ShaderManager` collaborator.
The `mat4` constructor records the arguments of the model-matrix write; the
matrix value written is `SetTransformationsMatrix` of those arguments (the
write is a deterministic function of them). -/
inductive UniformWrite where
  | mat4 (name : String) (scaleXYZ : Vec3) (rx ry rz : ℚ) (positionXYZ : Vec3)
  | intVal (name : String) (v : Int)
  | vec4 (name : String) (r g b a : ℚ)
  | sampler2D (name : String) (v : Int)
  | vec2 (name : String) (u v : ℚ)
  | vec3Val (name : String) (v : Vec3)
  | floatVal (name : String) (v : ℚ)
deriving DecidableEq, Repr

/-- `SceneManager::SetTransformations` (source lines 247-277): composes the
model matrix and, when the shader collaborator is non-null, writes it to the
uniform named `"model"`.  Member state is returned unchanged, exactly as in
the source (the function writes no members). -/
def SetTransformations (scaleXYZ : Vec3)
    (XrotationDegrees YrotationDegrees ZrotationDegrees : ℚ)
    (positionXYZ : Vec3) (s : SceneState) : SceneState × List UniformWrite :=
  (s, if s.shaderPresent then
        [.mat4 "model" scaleXYZ XrotationDegrees YrotationDegrees
          ZrotationDegrees positionXYZ]
      else [])

/-- `SceneManager::SetShaderColor` (source lines 285-304): when the shader
collaborator is non-null, writes `bUseTexture := false` (an `int` uniform,
so 0) and then the RGBA colour. -/
def SetShaderColor (redColorValue greenColorValue blueColorValue alphaValue : ℚ)
    (s : SceneState) : SceneState × List UniformWrite :=
  (s, if s.shaderPresent then
        [.intVal "bUseTexture" 0,
         .vec4 "objectColor" redColorValue greenColorValue blueColorValue
           alphaValue]
      else [])

/-- `SceneManager::SetShaderTexture` (source lines 312-323): when the shader
collaborator is non-null, writes `bUseTexture := true` (1) and then the slot
resolved by `FindTextureSlot` — possibly the -1 sentinel, unvalidated. -/
def SetShaderTexture (textureTag : String) (s : SceneState) :
    SceneState × List UniformWrite :=
  (s, if s.shaderPresent then
        [.intVal "bUseTexture" 1,
         .sampler2D "objectTexture" (FindTextureSlot s textureTag)]
      else [])

/-- `SceneManager::SetTextureUVScale` (source lines 331-337). -/
def SetTextureUVScale (u v : ℚ) (s : SceneState) :
    SceneState × List UniformWrite :=
  (s, if s.shaderPresent then [.vec2 "UVscale" u v] else [])

/-- `SceneManager::SetShaderMaterial` (source lines 384-400).  Unlike every
other uniform writer, the material branch uses `m_pShaderManager` WITHOUT a
null check; `none` marks that null dereference.  The uninitialized local
`OBJECT_MATERIAL material` is modelled by `default`: when `FindMaterial`
matches, all three written fields have been overwritten by the match, and
when the registry is non-empty without a match the source writes the
indeterminate locals, which `default` stands in for. -/
def SetShaderMaterial (materialTag : String) (s : SceneState) :
    SceneState × Option (List UniformWrite) :=
  if s.m_objectMaterials.length > 0 then
    let r := FindMaterial s.m_objectMaterials materialTag default
    if r.1 = true then
      if s.shaderPresent then
        (s, some [.vec3Val "material.diffuseColor" r.2.diffuseColor,
                  .vec3Val "material.specularColor" r.2.specularColor,
                  .floatVal "material.shininess" r.2.shininess])
      else (s, none)
    else (s, some [])
  else (s, some [])

/-- `SceneManager::LoadSceneTextures` (source lines 346-376): five
`CreateGLTexture` calls with the fixed tags, return values ignored, then
`BindGLTextures`.  The five arguments are the decode results of the five
image files. -/
def LoadSceneTextures (marbleImg goldImg versaceImg blueGlassImg perfumeImg :
    Option ImageData) (s : SceneState) : SceneState × List (Nat × Nat) :=
  let s1 := (CreateGLTexture marbleImg "marble" s).2
  let s2 := (CreateGLTexture goldImg "gold" s1).2
  let s3 := (CreateGLTexture versaceImg "versace" s2).2
  let s4 := (CreateGLTexture blueGlassImg "blue_glass" s3).2
  let s5 := (CreateGLTexture perfumeImg "perfume" s4).2
  (s5, BindGLTextures s5)

/-- A general load phase: `CreateGLTexture` once per (tag, decode result)
pair, in order, return values ignored — the shape shared by
`LoadSceneTextures` and the specification's "sequence of texture loads". -/
def loadTextures : List (String × Option ImageData) → SceneState → SceneState
  | [], s => s
  | (tag, img) :: rest, s => loadTextures rest (CreateGLTexture img tag s).2

/-- Whether a `CreateGLTexture` call with this decode result succeeds
(decode succeeded and the channel count is 3 or 4). -/
def loadOk : Option ImageData → Bool
  | some img => img.colorChannels = 3 ∨ img.colorChannels = 4
  | none => false

/-- The box faces of `ShapeMeshes::BoxSide` used by the scene. -/
inductive BoxSide where
  | bottom | right | left | back | front | top
deriving DecidableEq, Repr

/-- One draw command issued to the `ShapeMeshes` collaborator.  `cylinder`
records the `(bDrawTop, bDrawBottom, bDrawSides)` arguments (all `true` by
default). -/
inductive MeshDraw where
  | plane
  | box
  | sphere
  | torus
  | halfSphere
  | cylinder (drawTop drawBottom drawSides : Bool)
  | boxSide (side : BoxSide)
deriving DecidableEq, Repr

/-- One call made by a render routine: the three `SceneManager` setters the
routines use, or a mesh draw.  (No routine calls `SetTextureUVScale` or
`SetShaderMaterial`.) -/
inductive SMCall where
  | transform (scaleXYZ : Vec3) (rx ry rz : ℚ) (positionXYZ : Vec3)
  | shaderColor (r g b a : ℚ)
  | shaderTexture (tag : String)
  | draw (m : MeshDraw)
deriving DecidableEq, Repr

/-- Call sequence of `SceneManager::RenderTable` (source lines 463-501). -/
def RenderTableCalls : List SMCall :=
  [.transform ⟨30, 1, 30⟩ 0 0 0 ⟨0, 0, 0⟩,
   .shaderTexture "marble",
   .draw .plane]

/-- Call sequence of `SceneManager::RenderCologneBottle` (source lines
510-599). -/
def RenderCologneBottleCalls : List SMCall :=
  [.transform ⟨3.5, 5, 1.5⟩ 0 0 0 ⟨-15, 2.5, -15⟩,
   .shaderTexture "blue_glass",
   .draw .box,
   .transform ⟨0.5, 0.5, 0.2⟩ 0 0 0 ⟨-15, 2.5, -14.25⟩,
   .shaderTexture "versace",
   .draw .sphere,
   .transform ⟨0.7, 0.8, 0.7⟩ 0 0 0 ⟨-15, 5, -15⟩,
   .shaderTexture "gold",
   .draw (.cylinder true true true),
   .transform ⟨1, 1, 1⟩ 0 90 0 ⟨-15, 5.8, -15⟩,
   .shaderTexture "gold",
   .draw (.cylinder false true true),
   .shaderTexture "versace",
   .draw (.cylinder true false false)]

/-- Call sequence of `SceneManager::RenderPerfumeBottle` (source lines
608-668). -/
def RenderPerfumeBottleCalls : List SMCall :=
  [.transform ⟨1.75, 3.5, 1.75⟩ 0 0 0 ⟨-19, 1.75, 5⟩,
   .shaderTexture "perfume",
   .draw .box,
   .transform ⟨0.65, 1, 1.25⟩ 90 0 0 ⟨-19, 1.75, 5.9⟩,
   .shaderColor 1 0 0 1,
   .draw .plane,
   .transform ⟨0.65, 0.5, 0.65⟩ 0 0 0 ⟨-19, 3.5, 5⟩,
   .shaderTexture "gold",
   .draw (.cylinder true true true),
   .transform ⟨1.5, 0.75, 1.5⟩ 0 0 0 ⟨-19, 4.37, 5⟩,
   .shaderTexture "gold",
   .draw (.boxSide .bottom),
   .draw (.boxSide .right),
   .draw (.boxSide .left),
   .draw (.boxSide .back),
   .draw (.boxSide .front),
   .shaderTexture "versace",
   .draw (.boxSide .top)]

/-- Call sequence of `SceneManager::RenderItinerary` (source lines
676-718). -/
def RenderItineraryCalls : List SMCall :=
  [.transform ⟨22, 0.1, 11⟩ 0 (-60) 0 ⟨-18, 0.1, -5⟩,
   .shaderColor 1 1 1 1,
   .draw .box,
   .transform ⟨1.5, 1.5, 0.75⟩ 90 0 0 ⟨-22.25, 0.3, -12.75⟩,
   .shaderColor 0.12 0.21 0.18 1,
   .draw .torus,
   .transform ⟨1.6, 0.3, 1.6⟩ 0 0 0 ⟨-22.25, 0, -12.75⟩,
   .shaderColor 0.12 0.21 0.18 1,
   .draw .halfSphere]

/-- `SceneManager::RenderNecklaceBox` (source lines 726-729) is an empty
stub. -/
def RenderNecklaceBoxCalls : List SMCall := []

/-- `SceneManager::RenderRingBox` (source lines 737-740) is an empty stub. -/
def RenderRingBoxCalls : List SMCall := []

/-- `SceneManager::RenderWhiteVowBook` (source lines 749-752) is an empty
stub. -/
def RenderWhiteVowBookCalls : List SMCall := []

/-- `SceneManager::RenderBrownVowBook` (source lines 760-763) is an empty
stub. -/
def RenderBrownVowBookCalls : List SMCall := []

/-- Call sequence of `SceneManager::RenderScene` (source lines 443-453):
the eight render routines in their fixed order. -/
def RenderSceneCalls : List SMCall :=
  RenderTableCalls ++ RenderCologneBottleCalls ++ RenderPerfumeBottleCalls
    ++ RenderItineraryCalls ++ RenderNecklaceBoxCalls ++ RenderRingBoxCalls
    ++ RenderWhiteVowBookCalls ++ RenderBrownVowBookCalls

/-- Execute one render-routine call against the scene state, producing the
uniform writes it performs.  A draw issues geometry commands only — it writes
no uniforms and touches no member state. -/
def runCall (s : SceneState) : SMCall → SceneState × List UniformWrite
  | .transform sc rx ry rz p => SetTransformations sc rx ry rz p s
  | .shaderColor r g b a => SetShaderColor r g b a s
  | .shaderTexture tag => SetShaderTexture tag s
  | .draw _ => (s, [])

/-- Execute a call sequence, threading state and concatenating the uniform
writes in order. -/
def runCalls (s : SceneState) : List SMCall → SceneState × List UniformWrite
  | [] => (s, [])
  | c :: rest =>
    let r1 := runCall s c
    let r2 := runCalls r1.1 rest
    (r2.1, r1.2 ++ r2.2)

/-- `SceneManager::RenderScene`: run the full per-frame call sequence. -/
def RenderScene (s : SceneState) : SceneState × List UniformWrite :=
  runCalls s RenderSceneCalls

/-- Strict set-then-draw pairing: scanning the call list, a draw is legal
only when both a `transform` call and a shader-state call (`shaderColor` or
`shaderTexture`) have occurred since the previous draw; both flags reset at
every draw. -/
def strictTriplesFrom (hasTransform hasShaderState : Bool) :
    List SMCall → Bool
  | [] => true
  | .transform _ _ _ _ _ :: rest => strictTriplesFrom true hasShaderState rest
  | .shaderColor _ _ _ _ :: rest => strictTriplesFrom hasTransform true rest
  | .shaderTexture _ :: rest => strictTriplesFrom hasTransform true rest
  | .draw _ :: rest =>
    hasTransform && hasShaderState && strictTriplesFrom false false rest

/-- Strict set-then-draw pairing over a whole call list. -/
def strictTriples (calls : List SMCall) : Bool :=
  strictTriplesFrom false false calls

/-- Relaxed pairing: every draw must be preceded by at least one `transform`
call and at least one shader-state call earlier in the list, but earlier
draws do not reset the flags (uniform state persists across draws). -/
def coveredDrawsFrom (hasTransform hasShaderState : Bool) :
    List SMCall → Bool
  | [] => true
  | .transform _ _ _ _ _ :: rest => coveredDrawsFrom true hasShaderState rest
  | .shaderColor _ _ _ _ :: rest => coveredDrawsFrom hasTransform true rest
  | .shaderTexture _ :: rest => coveredDrawsFrom hasTransform true rest
  | .draw _ :: rest =>
    hasTransform && hasShaderState && coveredDrawsFrom hasTransform hasShaderState rest

/-- Relaxed pairing over a whole call list. -/
def coveredDraws (calls : List SMCall) : Bool :=
  coveredDrawsFrom false false calls

/-- The value of the `"bUseTexture"` uniform after a write sequence, given
its prior value: the last `intVal "bUseTexture"` write wins. -/
def useTextureAfter (prior : Option Int) (ws : List UniformWrite) : Option Int :=
  ws.foldl
    (fun acc w =>
      match w with
      | .intVal n v => if n = "bUseTexture" then some v else acc
      | _ => acc)
    prior

/-- The scan loop of `FindTextureSlot` restricted to the tag strings — the
handle values never influence the result. -/
def tagSlotAux (tag : String) : List String → Int → Int
  | [], _ => -1
  | t :: rest, index =>
    if t = tag then index else tagSlotAux tag rest (index + 1)

/-- A concrete load sequence: the five scene textures, all decoding as
512x512 RGB images. -/
def demoLoads : List (String × Option ImageData) :=
  [("marble", some ⟨512, 512, 3⟩),
   ("gold", some ⟨512, 512, 3⟩),
   ("versace", some ⟨512, 512, 3⟩),
   ("blue_glass", some ⟨512, 512, 3⟩),
   ("perfume", some ⟨512, 512, 3⟩)]

/-- A concrete material entry, for witnesses and counterexamples. -/
def demoMaterial : ObjectMaterial :=
  ⟨⟨1, 0, 0⟩, ⟨1, 1, 1⟩, 8, "metal"⟩

/-- A state whose shader collaborator pointer is null but whose material
list is non-empty. -/
def noShaderState : SceneState :=
  ⟨[], [demoMaterial], false, 1⟩

theorem glmRotate_unitX (c s : ℚ) : glmRotate c s ⟨1, 0, 0⟩ = specRotationX c s := by
  unfold glmRotate specRotationX
  ext i j
  fin_cases i <;> fin_cases j <;> simp [Matrix.vecHead, Matrix.vecTail]

theorem glmRotate_unitY (c s : ℚ) : glmRotate c s ⟨0, 1, 0⟩ = specRotationY c s := by
  unfold glmRotate specRotationY
  ext i j
  fin_cases i <;> fin_cases j <;> simp [Matrix.vecHead, Matrix.vecTail]

theorem glmRotate_unitZ (c s : ℚ) : glmRotate c s ⟨0, 0, 1⟩ = specRotationZ c s := by
  unfold glmRotate specRotationZ
  ext i j
  fin_cases i <;> fin_cases j <;> simp [Matrix.vecHead, Matrix.vecTail]

theorem glmTranslate_eq_spec (p : Vec3) : glmTranslate p = specTranslation p := rfl

theorem glmScale_eq_spec (v : Vec3) : glmScale v = specScale v := rfl

theorem specRotationX_id : specRotationX 1 0 = 1 := by
  unfold specRotationX
  ext i j
  fin_cases i <;> fin_cases j <;>
    simp [Matrix.one_apply, Matrix.vecHead, Matrix.vecTail]

theorem specRotationY_id : specRotationY 1 0 = 1 := by
  unfold specRotationY
  ext i j
  fin_cases i <;> fin_cases j <;>
    simp [Matrix.one_apply, Matrix.vecHead, Matrix.vecTail]

theorem specRotationZ_id : specRotationZ 1 0 = 1 := by
  unfold specRotationZ
  ext i j
  fin_cases i <;> fin_cases j <;>
    simp [Matrix.one_apply, Matrix.vecHead, Matrix.vecTail]

/-- Claim C1: for every scale vector, rotation angles and position vector,
`SetTransformations` composes exactly the matrix
`T(P) * Rz(z) * Ry(y) * Rx(x) * Scale(S)` (rotations about the unit X, Y, Z
axes, X innermost, then Y, then Z, then translation); rotation angles
`(0, 0, 0)` (cosine 1, sine 0) contribute the identity rotation; and with a
non-null shader collaborator the composed matrix is written to the
model-matrix uniform `"model"` as the sole uniform write of the call. -/
theorem SetTransformations_composes_model_matrix
    (scaleXYZ positionXYZ : Vec3) (cx sx cy sy cz sz rx ry rz : ℚ)
    (s : SceneState) (h : s.shaderPresent = true) :
    SetTransformationsMatrix scaleXYZ cx sx cy sy cz sz positionXYZ =
      specModelMatrix scaleXYZ cx sx cy sy cz sz positionXYZ ∧
    SetTransformationsMatrix scaleXYZ 1 0 1 0 1 0 positionXYZ =
      specTranslation positionXYZ * specScale scaleXYZ ∧
    (SetTransformations scaleXYZ rx ry rz positionXYZ s).2 =
      [.mat4 "model" scaleXYZ rx ry rz positionXYZ] := by
  refine ⟨?_, ?_, ?_⟩
  · unfold SetTransformationsMatrix specModelMatrix
    rw [glmRotate_unitX, glmRotate_unitY, glmRotate_unitZ, glmTranslate_eq_spec,
      glmScale_eq_spec]
  · unfold SetTransformationsMatrix
    rw [glmRotate_unitX, glmRotate_unitY, glmRotate_unitZ, glmTranslate_eq_spec,
      glmScale_eq_spec, specRotationX_id, specRotationY_id, specRotationZ_id,
      mul_one, mul_one, mul_one]
  · simp [SetTransformations, h]

/-- Witness for C1 at a concrete state with a live shader collaborator. -/
theorem SetTransformations_composes_model_matrix_witness :
    (initialState true).shaderPresent = true ∧
    (SetTransformations ⟨30, 1, 30⟩ 0 0 0 ⟨0, 0, 0⟩ (initialState true)).2 =
      [.mat4 "model" ⟨30, 1, 30⟩ 0 0 0 ⟨0, 0, 0⟩] :=
  ⟨rfl,
    (SetTransformations_composes_model_matrix ⟨30, 1, 30⟩ ⟨0, 0, 0⟩
      1 0 1 0 1 0 0 0 0 (initialState true) rfl).2.2⟩

theorem FindMaterialLoop_no_match (tag : String) (material : ObjectMaterial) :
    ∀ l : List ObjectMaterial, (∀ m ∈ l, m.tag ≠ tag) →
      FindMaterialLoop tag material l = material := by
  intro l
  induction l with
  | nil => intro _; rfl
  | cons m rest ih =>
    intro h
    have hm : m.tag ≠ tag := h m (List.mem_cons_self m rest)
    simp only [FindMaterialLoop, if_neg hm]
    exact ih (fun m' hm' => h m' (List.mem_cons_of_mem m hm'))

theorem FindMaterialLoop_first_match (tag : String) (material : ObjectMaterial)
    (m : ObjectMaterial) (hm : m.tag = tag) :
    ∀ pre post, (∀ m' ∈ pre, m'.tag ≠ tag) →
      FindMaterialLoop tag material (pre ++ m :: post) =
        { material with
            diffuseColor := m.diffuseColor
            specularColor := m.specularColor
            shininess := m.shininess } := by
  intro pre
  induction pre with
  | nil =>
    intro post _
    simp [FindMaterialLoop, hm]
  | cons p rest ih =>
    intro post h
    have hp : p.tag ≠ tag := h p (List.mem_cons_self p rest)
    simp only [List.cons_append, FindMaterialLoop, if_neg hp]
    exact ih post (fun m' hm' => h m' (List.mem_cons_of_mem p hm'))

/-- Claim C2: `FindMaterial` on an empty list returns `false` with the
caller's material unchanged; on a non-empty list it returns `true` whether or
not any entry matches, copying the first matching entry's `diffuseColor`,
`specularColor` and `shininess` into the caller's material when a match
exists and leaving the material unchanged when no entry matches. -/
theorem FindMaterial_contract (mats : List ObjectMaterial) (tag : String)
    (material : ObjectMaterial) :
    (mats = [] → FindMaterial mats tag material = (false, material)) ∧
    (mats ≠ [] →
      (FindMaterial mats tag material).1 = true ∧
      ((∀ m ∈ mats, m.tag ≠ tag) →
        (FindMaterial mats tag material).2 = material) ∧
      (∀ pre m post, mats = pre ++ m :: post → m.tag = tag →
        (∀ m' ∈ pre, m'.tag ≠ tag) →
        (FindMaterial mats tag material).2 =
          { material with
              diffuseColor := m.diffuseColor
              specularColor := m.specularColor
              shininess := m.shininess })) := by
  constructor
  · intro h
    subst h
    rfl
  · intro h
    have hne : mats.isEmpty = false := by
      cases mats with
      | nil => exact absurd rfl h
      | cons a l => rfl
    refine ⟨?_, ?_, ?_⟩
    · simp [FindMaterial, hne]
    · intro hno
      simp [FindMaterial, hne, FindMaterialLoop_no_match tag material mats hno]
    · intro pre m post hsplit hm hpre
      simp [FindMaterial, hne, hsplit,
        FindMaterialLoop_first_match tag material m hm pre post hpre]

/-- Witness for C2: the empty registry reports not-found and passes the
material through; a non-empty registry with no matching tag still reports
found while passing the material through. -/
theorem FindMaterial_contract_witness :
    FindMaterial [] "metal" default = (false, default) ∧
    (FindMaterial [demoMaterial] "wood" default).1 = true ∧
    (FindMaterial [demoMaterial] "wood" default).2 = default :=
  ⟨(FindMaterial_contract [] "metal" default).1 rfl,
    ((FindMaterial_contract [demoMaterial] "wood" default).2
      (by simp [demoMaterial])).1,
    ((FindMaterial_contract [demoMaterial] "wood" default).2
      (by simp [demoMaterial])).2.1 (by decide)⟩

/-- Claim C4: an image that decodes with a channel count other than 3 or 4
makes `CreateGLTexture` return `false` and leaves the texture registry
unchanged — the entry count is not incremented and no (tag, handle) entry is
appended. -/
theorem CreateGLTexture_rejects_bad_channels (img : ImageData) (tag : String)
    (s : SceneState) (h3 : img.colorChannels ≠ 3) (h4 : img.colorChannels ≠ 4) :
    (CreateGLTexture (some img) tag s).1 = false ∧
    (CreateGLTexture (some img) tag s).2.m_textureIDs = s.m_textureIDs ∧
    (CreateGLTexture (some img) tag s).2.m_textureIDs.length =
      s.m_textureIDs.length := by
  have hcond : ¬(img.colorChannels = 3 ∨ img.colorChannels = 4) := by
    rintro (h | h)
    · exact h3 h
    · exact h4 h
  refine ⟨?_, ?_, ?_⟩ <;> simp [CreateGLTexture, hcond]

/-- Witness for C4 at a 2-channel (grey-alpha) image. -/
theorem CreateGLTexture_rejects_bad_channels_witness :
    (CreateGLTexture (some ⟨64, 64, 2⟩) "grey" (initialState true)).1 = false ∧
    (CreateGLTexture (some ⟨64, 64, 2⟩) "grey"
      (initialState true)).2.m_textureIDs = [] :=
  ⟨(CreateGLTexture_rejects_bad_channels ⟨64, 64, 2⟩ "grey" (initialState true)
      (by decide) (by decide)).1,
    (CreateGLTexture_rejects_bad_channels ⟨64, 64, 2⟩ "grey" (initialState true)
      (by decide) (by decide)).2.1⟩

theorem FindTextureSlotAux_no_match (tag : String) :
    ∀ (l : List TextureEntry), (∀ e ∈ l, e.tag ≠ tag) →
      ∀ i : Int, FindTextureSlotAux tag l i = -1 := by
  intro l
  induction l with
  | nil => intro _ _; rfl
  | cons e rest ih =>
    intro h i
    have he : e.tag ≠ tag := h e (List.mem_cons_self e rest)
    simp only [FindTextureSlotAux, if_neg he]
    exact ih (fun e' he' => h e' (List.mem_cons_of_mem e he')) (i + 1)

/-- Claim C8: a tag matching no registered texture entry (in particular any
tag against an empty registry) makes `FindTextureSlot` return the not-found
sentinel -1, which is never a value in `[0, loadedCount)`. -/
theorem FindTextureSlot_miss (s : SceneState) (tag : String)
    (h : ∀ e ∈ s.m_textureIDs, e.tag ≠ tag) :
    FindTextureSlot s tag = -1 ∧
    ¬(0 ≤ FindTextureSlot s tag ∧
      FindTextureSlot s tag < (s.m_textureIDs.length : Int)) := by
  have hmain : FindTextureSlot s tag = -1 :=
    FindTextureSlotAux_no_match tag s.m_textureIDs h 0
  refine ⟨hmain, ?_⟩
  rw [hmain]
  intro hcontra
  omega

/-- Witness for C8: a populated registry with an unregistered tag. -/
theorem FindTextureSlot_miss_witness :
    FindTextureSlot ⟨[⟨1, "marble"⟩, ⟨2, "gold"⟩], [], true, 3⟩ "nope" = -1 :=
  (FindTextureSlot_miss ⟨[⟨1, "marble"⟩, ⟨2, "gold"⟩], [], true, 3⟩ "nope"
    (by decide)).1

theorem FindTextureSlotAux_eq_tagSlotAux (tag : String) :
    ∀ (l : List TextureEntry) (i : Int),
      FindTextureSlotAux tag l i = tagSlotAux tag (l.map TextureEntry.tag) i := by
  intro l
  induction l with
  | nil => intro i; rfl
  | cons e rest ih =>
    intro i
    simp only [List.map_cons, FindTextureSlotAux, tagSlotAux]
    by_cases h : e.tag = tag
    · simp [h]
    · simp [h, ih]

theorem tagSlotAux_nodup :
    ∀ (l : List String), l.Nodup → ∀ (j : Nat) (hj : j < l.length) (i : Int),
      tagSlotAux (l.get ⟨j, hj⟩) l i = i + j := by
  intro l
  induction l with
  | nil =>
    intro _ j hj
    exact absurd hj (by simp)
  | cons a rest ih =>
    intro hnd j hj i
    cases j with
    | zero => simp [tagSlotAux]
    | succ k =>
      have hk : k < rest.length := by simpa using hj
      have hget : (a :: rest).get ⟨k + 1, hj⟩ = rest.get ⟨k, hk⟩ := rfl
      have hmem : rest.get ⟨k, hk⟩ ∈ rest := List.get_mem rest k hk
      have ha : a ≠ rest.get ⟨k, hk⟩ := by
        intro hEq
        exact (List.nodup_cons.mp hnd).1 (hEq ▸ hmem)
      rw [hget]
      simp only [tagSlotAux, if_neg ha]
      rw [ih (List.nodup_cons.mp hnd).2 k hk (i + 1)]
      push_cast
      ring

theorem loadTextures_tags :
    ∀ (loads : List (String × Option ImageData)) (s : SceneState),
      (∀ p ∈ loads, loadOk p.2 = true) →
      (loadTextures loads s).m_textureIDs.map TextureEntry.tag =
        s.m_textureIDs.map TextureEntry.tag ++ loads.map Prod.fst := by
  intro loads
  induction loads with
  | nil => intro s _; simp [loadTextures]
  | cons p rest ih =>
    intro s h
    obtain ⟨tag, img⟩ := p
    have hok : loadOk img = true := h (tag, img) (List.mem_cons_self _ _)
    cases img with
    | none => simp [loadOk] at hok
    | some im =>
      have hch : im.colorChannels = 3 ∨ im.colorChannels = 4 := by
        simpa [loadOk] using hok
      simp only [loadTextures]
      rw [ih _ (fun q hq => h q (List.mem_cons_of_mem _ hq))]
      have hcreate :
          (CreateGLTexture (some im) tag s).2.m_textureIDs =
            s.m_textureIDs ++ [⟨s.glNextID, tag⟩] := by
        rcases hch with h' | h' <;> simp [CreateGLTexture, h']
      rw [hcreate]
      simp

/-- Claim C3: for every sequence of successful texture loads with
pairwise-distinct tags, `FindTextureSlot` (after `BindGLTextures`, which does
not touch the registry) returns the zero-based registration order of the
tag's entry; in particular, after the five scene loads of
`LoadSceneTextures` all succeed, `FindTextureSlot` on `"versace"`
returns 2. -/
theorem FindTextureSlot_registration_order :
    (∀ (loads : List (String × Option ImageData)),
      (∀ p ∈ loads, loadOk p.2 = true) →
      (loads.map Prod.fst).Nodup →
      ∀ (i : Nat) (hi : i < loads.length),
        FindTextureSlot (loadTextures loads (initialState true))
          (loads.get ⟨i, hi⟩).1 = i) ∧
    (∀ m g v b p : Option ImageData,
      loadOk m = true → loadOk g = true → loadOk v = true →
      loadOk b = true → loadOk p = true →
      FindTextureSlot (LoadSceneTextures m g v b p (initialState true)).1
        "versace" = 2) := by
  have key : ∀ (loads : List (String × Option ImageData)),
      (∀ p ∈ loads, loadOk p.2 = true) →
      (loads.map Prod.fst).Nodup →
      ∀ (i : Nat) (hi : i < loads.length),
        FindTextureSlot (loadTextures loads (initialState true))
          (loads.get ⟨i, hi⟩).1 = i := by
    intro loads hok hnd i hi
    have htags := loadTextures_tags loads (initialState true) hok
    unfold FindTextureSlot
    rw [FindTextureSlotAux_eq_tagSlotAux, htags]
    simp only [initialState, List.map_nil, List.nil_append]
    have hi' : i < (loads.map Prod.fst).length := by simpa using hi
    have hget : (loads.map Prod.fst).get ⟨i, hi'⟩ = (loads.get ⟨i, hi⟩).1 := by
      simp
    rw [← hget, tagSlotAux_nodup (loads.map Prod.fst) hnd i hi' 0]
    simp
  refine ⟨key, ?_⟩
  intro m g v b p hm hg hv hb hp
  have h2 := key
    [("marble", m), ("gold", g), ("versace", v), ("blue_glass", b),
      ("perfume", p)]
    (by
      intro q hq
      fin_cases hq <;> assumption)
    (by
      show (["marble", "gold", "versace", "blue_glass", "perfume"] :
        List String).Nodup
      decide)
    2
    (by
      show (2 : Nat) < 5
      decide)
  exact h2

/-- Witness for C3: the five scene tags loaded as valid RGB images; the tag
registered third resolves to slot 2. -/
theorem FindTextureSlot_registration_order_witness :
    (∀ p ∈ demoLoads, loadOk p.2 = true) ∧
    (demoLoads.map Prod.fst).Nodup ∧
    2 < demoLoads.length ∧
    FindTextureSlot (loadTextures demoLoads (initialState true)) "versace" = 2 :=
  ⟨by decide, by decide, by decide,
    FindTextureSlot_registration_order.1 demoLoads (by decide) (by decide) 2
      (by decide)⟩

/-- Claim C5 counterexample: `SetShaderMaterial` does NOT null-check the
shader collaborator — with a null collaborator and a non-empty material list
it dereferences the null pointer (modelled as the `none` outcome) instead of
skipping the uniform writes. -/
theorem SetShaderMaterial_null_deref :
    (SetShaderMaterial "metal" noShaderState).2 = none := by decide

/-- Claim C5 (amended): `SetTransformations`, `SetShaderColor`,
`SetShaderTexture` and `SetTextureUVScale` null-check the shader collaborator
before every use and perform no uniform write when it is null;
`SetShaderMaterial` alone has no null check: with an empty material list it
performs no write and no dereference, but with a non-empty material list it
dereferences the collaborator unconditionally (because `FindMaterial` reports
a match whenever the list is non-empty). -/
theorem shader_writers_null_guard (scaleXYZ positionXYZ : Vec3)
    (rx ry rz r g b a u v : ℚ) (tag : String) (s : SceneState)
    (h : s.shaderPresent = false) :
    (SetTransformations scaleXYZ rx ry rz positionXYZ s).2 = [] ∧
    (SetShaderColor r g b a s).2 = [] ∧
    (SetShaderTexture tag s).2 = [] ∧
    (SetTextureUVScale u v s).2 = [] ∧
    (s.m_objectMaterials = [] → (SetShaderMaterial tag s).2 = some []) ∧
    (s.m_objectMaterials ≠ [] → (SetShaderMaterial tag s).2 = none) := by
  refine ⟨by simp [SetTransformations, h], by simp [SetShaderColor, h],
    by simp [SetShaderTexture, h], by simp [SetTextureUVScale, h], ?_, ?_⟩
  · intro hm
    simp [SetShaderMaterial, hm]
  · intro hm
    have hlen : 0 < s.m_objectMaterials.length := List.length_pos.mpr hm
    have hemp : s.m_objectMaterials.isEmpty = false := by
      cases hL : s.m_objectMaterials with
      | nil => exact absurd hL hm
      | cons x xs => rfl
    have hfst : (FindMaterial s.m_objectMaterials tag default).1 = true := by
      simp [FindMaterial, hemp]
    simp [SetShaderMaterial, hlen, hfst, h]

/-- Witness for C5 (amended) at a null-shader state with no materials. -/
theorem shader_writers_null_guard_witness :
    (SetShaderColor 1 0 0 1 (initialState false)).2 = [] ∧
    (SetShaderMaterial "metal" (initialState false)).2 = some [] :=
  ⟨(shader_writers_null_guard ⟨0, 0, 0⟩ ⟨0, 0, 0⟩ 0 0 0 1 0 0 1 0 0 "metal"
      (initialState false) rfl).2.1,
    (shader_writers_null_guard ⟨0, 0, 0⟩ ⟨0, 0, 0⟩ 0 0 0 1 0 0 1 0 0 "metal"
      (initialState false) rfl).2.2.2.2.1 rfl⟩

/-- Claim C6 counterexample: strict set-then-draw pairing — a fresh
`(transform, shader-state, draw)` triple for every draw — fails on the
`RenderScene` call sequence: the cologne cap's second cylinder draw and the
perfume cap's grouped box-side draws reuse state set before an earlier draw.
-/
theorem strict_triples_violated : strictTriples RenderSceneCalls = false := by
  decide

/-- Claim C6 (amended): every draw call issued during `RenderScene` is
preceded, within its own render routine (and hence within the frame), by at
least one `SetTransformations` call and at least one shader-state call
(`SetShaderColor` or `SetShaderTexture`); but the pairing is not strict — a
multi-draw group may reuse the transform or shader state set before an
earlier draw of the same group, relying on uniform state persisting across
draws. -/
theorem draws_covered_by_prior_state :
    coveredDraws RenderTableCalls = true ∧
    coveredDraws RenderCologneBottleCalls = true ∧
    coveredDraws RenderPerfumeBottleCalls = true ∧
    coveredDraws RenderItineraryCalls = true ∧
    coveredDraws RenderNecklaceBoxCalls = true ∧
    coveredDraws RenderRingBoxCalls = true ∧
    coveredDraws RenderWhiteVowBookCalls = true ∧
    coveredDraws RenderBrownVowBookCalls = true ∧
    coveredDraws RenderSceneCalls = true := by
  refine ⟨?_, ?_, ?_, ?_, ?_, ?_, ?_, ?_, ?_⟩ <;> decide

theorem runCall_state (s : SceneState) (c : SMCall) : (runCall s c).1 = s := by
  cases c <;> rfl

theorem runCalls_state :
    ∀ (calls : List SMCall) (s : SceneState), (runCalls s calls).1 = s := by
  intro calls
  induction calls with
  | nil => intro s; rfl
  | cons c rest ih =>
    intro s
    show (runCalls (runCall s c).1 rest).1 = s
    rw [runCall_state]
    exact ih s

/-- Claim C7: `RenderScene` is deterministic and carries no hidden state
between invocations — it leaves the member state exactly as it found it, so
two consecutive calls on the same registries emit identical uniform-write
sequences. -/
theorem RenderScene_deterministic (s : SceneState) :
    (RenderScene s).1 = s ∧
    (RenderScene ((RenderScene s).1)).2 = (RenderScene s).2 := by
  have h : (RenderScene s).1 = s := runCalls_state RenderSceneCalls s
  exact ⟨h, by rw [h]⟩

/-- Claim C9: with a non-null shader collaborator, `SetShaderColor` leaves
the `"bUseTexture"` uniform false (0) and writes the RGBA colour, while
`SetShaderTexture` leaves it true (1) and writes the resolved slot index —
the two modes are mutually exclusive for the draw that follows, whatever the
prior value of the flag. -/
theorem shader_color_texture_exclusive (s : SceneState) (r g b a : ℚ)
    (tag : String) (prior : Option Int) (h : s.shaderPresent = true) :
    (SetShaderColor r g b a s).2 =
      [.intVal "bUseTexture" 0, .vec4 "objectColor" r g b a] ∧
    useTextureAfter prior (SetShaderColor r g b a s).2 = some 0 ∧
    (SetShaderTexture tag s).2 =
      [.intVal "bUseTexture" 1,
       .sampler2D "objectTexture" (FindTextureSlot s tag)] ∧
    useTextureAfter prior (SetShaderTexture tag s).2 = some 1 := by
  refine ⟨by simp [SetShaderColor, h], ?_, by simp [SetShaderTexture, h], ?_⟩
  · simp [SetShaderColor, h, useTextureAfter]
  · simp [SetShaderTexture, h, useTextureAfter]

/-- Witness for C9 with a live shader collaborator and no prior flag value.
-/
theorem shader_color_texture_exclusive_witness :
    useTextureAfter none (SetShaderColor 1 0 0 1 (initialState true)).2 =
      some 0 ∧
    useTextureAfter none (SetShaderTexture "marble" (initialState true)).2 =
      some 1 :=
  ⟨(shader_color_texture_exclusive (initialState true) 1 0 0 1 "marble" none
      rfl).2.1,
    (shader_color_texture_exclusive (initialState true) 1 0 0 1 "marble" none
      rfl).2.2.2⟩

/-- Claim C10: with an empty material list, `SetShaderMaterial` writes no
shader uniforms and never dereferences the shader collaborator, so it is safe
even with a null collaborator; and this program registers no materials — the
texture-load phase and `RenderScene` leave the material list empty — so the
unguarded dereference in the match branch is unreachable here. -/
theorem SetShaderMaterial_empty_registry_safe (tag : String) (s : SceneState)
    (h : s.m_objectMaterials = []) :
    SetShaderMaterial tag s = (s, some []) ∧
    (∀ m g v b p : Option ImageData,
      ((LoadSceneTextures m g v b p
        (initialState s.shaderPresent)).1).m_objectMaterials = []) ∧
    ((RenderScene s).1).m_objectMaterials = [] := by
  refine ⟨by simp [SetShaderMaterial, h], ?_, ?_⟩
  · intro m g v b p
    have hmats : ∀ (img : Option ImageData) (t : String) (st : SceneState),
        (CreateGLTexture img t st).2.m_objectMaterials =
          st.m_objectMaterials := by
      intro img t st
      cases img with
      | none => rfl
      | some im =>
        by_cases hch : im.colorChannels = 3 ∨ im.colorChannels = 4
        · rcases hch with h' | h' <;> simp [CreateGLTexture, h']
        · simp [CreateGLTexture, hch]
    simp [LoadSceneTextures, hmats, initialState]
  · rw [show (RenderScene s).1 = s from runCalls_state RenderSceneCalls s]
    exact h

/-- Witness for C10 at a freshly constructed manager with a null shader
collaborator. -/
theorem SetShaderMaterial_empty_registry_safe_witness :
    SetShaderMaterial "gold" (initialState false) =
      (initialState false, some []) :=
  (SetShaderMaterial_empty_registry_safe "gold" (initialState false) rfl).1

end SceneManager
